import Mathlib

/-! # EmployeeOffice chaincode

A shallow embedding of `src/EmployeeOffice.go`, the Hyperledger Fabric smart
contract that keeps Employee and Office records in the ledger's world state.

* Byte slices and Go strings are both modelled as `String`; `nil` is `""`.
* The chaincode stub (`shim.ChaincodeStubInterface`) is modelled as explicit
  state: the world state plus a chronological record of every call made on it.
* A handler yields an `Outcome`: what `shim.Success` / `shim.Error` build, or
  the Go runtime panic raised by indexing a slice out of range.
* `encoding/json` decoding and the peer's rich-query engine are not part of
  the repository; they are parameters (`Env`).
-/

namespace EmployeeOffice

/-! ## Record model (source lines 28-44) -/

/-- Go struct `Employee`; the JSON tags are `empId`, `firstName`, `lastName`,
`dateOfJoining`, `officeId`. -/
structure Employee where
  EmployeeID : String
  FirstName : String
  LastName : String
  DateOfJoining : String
  OfficeID : String
deriving DecidableEq, Repr

/-- Go struct `Office`; the JSON tags are `officeId`, `buildingName`,
`streetName`, `city`, `state`, `country`. -/
structure Office where
  OfficeID : String
  BuildingName : String
  StreetName : String
  City : String
  State : String
  Country : String
deriving DecidableEq, Repr

/-! ## Serialisation (`json.Marshal` on the two structs) -/

/-- What `encoding/json` writes for one character of a Go string (HTML
escaping on, as `json.Marshal` has it): `"` and `\` get a backslash, newline,
carriage return and tab their short escapes, the other control characters and
`<`, `>`, `&` the form `\u00XX`, U+2028 and U+2029 the form `\u202X`; every other
character is written as it is. -/
def escapeRune (c : Char) : String :=
  if c = '\\' ∨ c = '"' then "\\".push c
  else if c = '\n' then "\\n"
  else if c = '\r' then "\\r"
  else if c = '\t' then "\\t"
  else if c.toNat < 0x20 ∨ c = '<' ∨ c = '>' ∨ c = '&' then
    ("\\u00".push (Nat.digitChar (c.toNat / 16))).push (Nat.digitChar (c.toNat % 16))
  else if c.toNat = 0x2028 then "\\u2028"
  else if c.toNat = 0x2029 then "\\u2029"
  else String.singleton c

/-- A Go string as a JSON string literal. -/
def quote (s : String) : String :=
  "\"" ++ String.join (s.toList.map escapeRune) ++ "\""

/-- The bytes of `json.Marshal(emp)` for an `Employee`: a flat object, fields in
declaration order under their JSON tags. -/
def MarshalEmployee (emp : Employee) : String :=
  "\x7b\"empId\":" ++ quote emp.EmployeeID ++
  ",\"firstName\":" ++ quote emp.FirstName ++
  ",\"lastName\":" ++ quote emp.LastName ++
  ",\"dateOfJoining\":" ++ quote emp.DateOfJoining ++
  ",\"officeId\":" ++ quote emp.OfficeID ++ "\x7d"

/-- The bytes of `json.Marshal(office)` for an `Office`. -/
def MarshalOffice (office : Office) : String :=
  "\x7b\"officeId\":" ++ quote office.OfficeID ++
  ",\"buildingName\":" ++ quote office.BuildingName ++
  ",\"streetName\":" ++ quote office.StreetName ++
  ",\"city\":" ++ quote office.City ++
  ",\"state\":" ++ quote office.State ++
  ",\"country\":" ++ quote office.Country ++ "\x7d"

/-! ## The chaincode stub -/

/-- The world state: key/value pairs, kept in ascending key order by `put`. -/
abbrev WorldState := List (String × String)

/-- One `queryResponse` of a state iterator. -/
structure KV where
  Key : String
  Value : String
deriving DecidableEq, Repr

/-- A state query iterator: what the successive `Next()` calls return, each a
hit or an error; `HasNext()` holds while the list is not empty. -/
abbrev Iterator := List (Except String KV)

/-- A call made on the stub. -/
inductive Access where
  | GetState (key : String)
  | PutState (key value : String)
  | GetStateByRange (startKey endKey : String)
  | GetQueryResult (query : String)
deriving DecidableEq, Repr

/-- The stub handed to a handler: the world state and the calls made so far. -/
structure Stub where
  state : WorldState
  accesses : List Access
deriving DecidableEq, Repr

/-- The value under `key`, if the world state has one (first binding). -/
def lookup (key : String) : WorldState → Option String
  | [] => none
  | (k, v) :: rest => if key = k then some v else lookup key rest

/-- Unconditional overwrite of `key`, keeping ascending key order. Keys compare
as Go strings do, byte by byte; on well-formed text that is the lexicographic
order of the characters. -/
def put (key value : String) : WorldState → WorldState
  | [] => [(key, value)]
  | (k, v) :: rest =>
    if key = k then (key, value) :: rest
    else if key.toList < k.toList then (key, value) :: (k, v) :: rest
    else (k, v) :: put key value rest

/-- The bindings with `startKey ≤ key < endKey`, in the order of the world
state (start inclusive, end exclusive). -/
def range (startKey endKey : String) (state : WorldState) : WorldState :=
  state.filter fun kv =>
    decide (startKey.toList ≤ kv.1.toList) && decide (kv.1.toList < endKey.toList)

/-- What the platform contributes and the repository does not define:
`json.Unmarshal` into a zero-valued `Employee` / `Office` (its error is always
discarded by the source, so only the resulting struct matters), and the state
database's execution of a rich query over the world state. -/
structure Env where
  UnmarshalEmployee : String → Employee
  UnmarshalOffice : String → Office
  ExecuteQuery : WorldState → String → Except String Iterator

/-- `APIstub.GetState(key)`: the stored bytes, empty when the key is absent. -/
def Stub.GetState (APIstub : Stub) (key : String) : String × Stub :=
  ((lookup key APIstub.state).getD "",
   { APIstub with accesses := APIstub.accesses ++ [Access.GetState key] })

/-- `APIstub.PutState(key, value)`. -/
def Stub.PutState (APIstub : Stub) (key value : String) : Stub :=
  { state := put key value APIstub.state,
    accesses := APIstub.accesses ++ [Access.PutState key value] }

/-- `APIstub.GetStateByRange(startKey, endKey)`: an iterator over the bindings
in range; the in-memory world state never fails to open or to advance it. -/
def Stub.GetStateByRange (APIstub : Stub) (startKey endKey : String) :
    Except String Iterator × Stub :=
  (Except.ok ((range startKey endKey APIstub.state).map fun kv => Except.ok ⟨kv.1, kv.2⟩),
   { APIstub with accesses := APIstub.accesses ++ [Access.GetStateByRange startKey endKey] })

/-- `APIstub.GetQueryResult(query)`: whatever the state database answers. -/
def Stub.GetQueryResult (env : Env) (APIstub : Stub) (query : String) :
    Except String Iterator × Stub :=
  (env.ExecuteQuery APIstub.state query,
   { APIstub with accesses := APIstub.accesses ++ [Access.GetQueryResult query] })

/-- A sample platform for evaluating handlers on concrete inputs: every stored
document is taken as malformed, so decoding leaves the struct zero-valued, and
the state database refuses rich queries, as LevelDB does. -/
def sampleEnv : Env :=
  { UnmarshalEmployee := fun _ => ⟨"", "", "", "", ""⟩,
    UnmarshalOffice := fun _ => ⟨"", "", "", "", "", ""⟩,
    ExecuteQuery := fun _ _ => Except.error "ExecuteQuery not supported for leveldb" }

/-! ## Handler results -/

/-- How a handler ends: `shim.Success(payload)`, `shim.Error(message)`, or the
Go runtime panic "index out of range" at `args[index]` with `len(args) = length`. -/
inductive Outcome where
  | Success (payload : String)
  | Error (message : String)
  | Panic (index length : Nat)
deriving DecidableEq, Repr

/-- Go slice indexing `args[i]` followed by the rest of the handler `k`: out of
range, the handler panics there and then, with the stub as it stands. -/
def index (args : List String) (i : Nat) (APIstub : Stub)
    (k : String → Outcome × Stub) : Outcome × Stub :=
  match args[i]? with
  | some a => k a
  | none => (Outcome.Panic i args.length, APIstub)

/-! ## Command handlers (source lines 131-209) -/

/-- Source lines 131-143. -/
def createEmployee (APIstub : Stub) (args : List String) : Outcome × Stub :=
  if args.length ≠ 5 then
    (Outcome.Error "Incorrect number of arguments. Expecting 5", APIstub)
  else
    index args 1 APIstub fun a1 =>
    index args 2 APIstub fun a2 =>
    index args 3 APIstub fun a3 =>
    index args 4 APIstub fun a4 =>
    index args 5 APIstub fun a5 =>
    let emp : Employee :=
      { EmployeeID := a1, FirstName := a2, LastName := a3, DateOfJoining := a4, OfficeID := a5 }
    let empAsBytes := MarshalEmployee emp
    index args 0 APIstub fun a0 =>
    let APIstub := APIstub.PutState a0 empAsBytes
    (Outcome.Success "", APIstub)

/-- Source lines 150-169. -/
def updateEmployee (env : Env) (APIstub : Stub) (args : List String) : Outcome × Stub :=
  if args.length ≠ 5 then
    (Outcome.Error "Incorrect number of arguments. Expecting 5", APIstub)
  else
    index args 1 APIstub fun a1 =>
    match APIstub.GetState a1 with
    | (empAsBytes, APIstub) =>
    let emp := env.UnmarshalEmployee empAsBytes
    index args 2 APIstub fun a2 =>
    let emp := { emp with FirstName := a2 }
    index args 3 APIstub fun a3 =>
    let emp := { emp with LastName := a3 }
    index args 4 APIstub fun a4 =>
    let emp := { emp with DateOfJoining := a4 }
    index args 5 APIstub fun a5 =>
    let emp := { emp with OfficeID := a5 }
    let empAsBytes := MarshalEmployee emp
    index args 0 APIstub fun a0 =>
    let APIstub := APIstub.PutState a0 empAsBytes
    (Outcome.Success "", APIstub)

/-- Source lines 176-191. -/
def assignOffice (env : Env) (APIstub : Stub) (args : List String) : Outcome × Stub :=
  if args.length ≠ 2 then
    (Outcome.Error "Incorrect number of arguments. Expecting 2", APIstub)
  else
    index args 1 APIstub fun a1 =>
    match APIstub.GetState a1 with
    | (empAsBytes, APIstub) =>
    let emp := env.UnmarshalEmployee empAsBytes
    index args 2 APIstub fun a2 =>
    let emp := { emp with OfficeID := a2 }
    let empAsBytes := MarshalEmployee emp
    index args 0 APIstub fun a0 =>
    let APIstub := APIstub.PutState a0 empAsBytes
    (Outcome.Success "", APIstub)

/-- Source lines 198-209. -/
def createOffice (APIstub : Stub) (args : List String) : Outcome × Stub :=
  if args.length ≠ 6 then
    (Outcome.Error "Incorrect number of arguments. Expecting 6", APIstub)
  else
    index args 1 APIstub fun a1 =>
    index args 2 APIstub fun a2 =>
    index args 3 APIstub fun a3 =>
    index args 4 APIstub fun a4 =>
    index args 5 APIstub fun a5 =>
    index args 6 APIstub fun a6 =>
    let office : Office :=
      { OfficeID := a1, BuildingName := a2, StreetName := a3, City := a4, State := a5,
        Country := a6 }
    let officeAsBytes := MarshalOffice office
    index args 0 APIstub fun a0 =>
    let APIstub := APIstub.PutState a0 officeAsBytes
    (Outcome.Success "", APIstub)

/-! ## Ledger initialisation (source lines 91-124) -/

/-- The `employees` slice literal of `initLedger` (source lines 92-99). -/
def employees : List Employee :=
  [ { EmployeeID := "EMP1001", FirstName := "Vineet", LastName := "Timble",
      DateOfJoining := "01/01/2000", OfficeID := "3" },
    { EmployeeID := "EMP1002", FirstName := "Amit", LastName := "Saxena",
      DateOfJoining := "01/01/2006", OfficeID := "2" },
    { EmployeeID := "EMP1003", FirstName := "Ashutosh", LastName := "Phoujdar",
      DateOfJoining := "01/01/2014", OfficeID := "2" },
    { EmployeeID := "EMP1004", FirstName := "Niraj", LastName := "Pandey",
      DateOfJoining := "01/01/2012", OfficeID := "1" },
    { EmployeeID := "EMP1005", FirstName := "Dinesh", LastName := "Juturu",
      DateOfJoining := "01/01/2015", OfficeID := "2" },
    { EmployeeID := "EMP1006", FirstName := "Rajesh", LastName := "Annaji",
      DateOfJoining := "01/01/2012", OfficeID := "2" } ]

/-- The `offices` slice literal of `initLedger` (source lines 109-113). -/
def offices : List Office :=
  [ { OfficeID := "OFF1", BuildingName := "Nirlon Compound",
      StreetName := "Off Western Express Highway", City := "Mumbai", State := "Maharashtra",
      Country := "India" },
    { OfficeID := "OFF2", BuildingName := "Global Axis", StreetName := "Road No 9",
      City := "Bangalore", State := "Karnataka", Country := "India" },
    { OfficeID := "OFF3", BuildingName := "Ambrosia", StreetName := "Bavdhan Khurd",
      City := "Pune", State := "Maharashtra", Country := "India" } ]

/-- The loop `for i < len(employees)` (source lines 100-107), entered at index
`i` with the elements from `i` on still to be written. -/
def initLedger_employees : List Employee → Nat → Stub → Stub
  | [], _, APIstub => APIstub
  | emp :: rest, i, APIstub =>
    let empAsBytes := MarshalEmployee emp
    let APIstub := APIstub.PutState ("EMPLOYEE" ++ Nat.repr i) empAsBytes
    initLedger_employees rest (i + 1) APIstub

/-- The loop `for j < len(offices)` (source lines 115-122). -/
def initLedger_offices : List Office → Nat → Stub → Stub
  | [], _, APIstub => APIstub
  | office :: rest, j, APIstub =>
    let officeAsBytes := MarshalOffice office
    let APIstub := APIstub.PutState ("OFFICE" ++ Nat.repr j) officeAsBytes
    initLedger_offices rest (j + 1) APIstub

/-- Source lines 91-124. -/
def initLedger (APIstub : Stub) : Outcome × Stub :=
  let APIstub := initLedger_employees employees 0 APIstub
  let APIstub := initLedger_offices offices 0 APIstub
  (Outcome.Success "", APIstub)

/-! ## Query handlers (source lines 216-415)

The source repeats the result-assembling code in each of the four handlers;
each copy is embedded from its own lines. -/

/-- The `for resultsIterator.HasNext()` loop of `queryAllEmployees` (source lines 231-250):
the buffer and the `bArrayMemberAlreadyWritten` flag are threaded through; an
error from `Next()` ends the handler with that error. -/
def queryAllEmployees_loop : Iterator → String → Bool → Except String String
  | [], buffer, _ => Except.ok buffer
  | Except.error err :: _, _, _ => Except.error err
  | Except.ok queryResponse :: resultsIterator, buffer, bArrayMemberAlreadyWritten =>
    let buffer := if bArrayMemberAlreadyWritten = true then buffer ++ "," else buffer
    let buffer := buffer ++ "\x7b\"Key\":"
    let buffer := buffer ++ "\""
    let buffer := buffer ++ queryResponse.Key
    let buffer := buffer ++ "\""
    let buffer := buffer ++ ", \"Record\":"
    let buffer := buffer ++ queryResponse.Value
    let buffer := buffer ++ "\x7d"
    queryAllEmployees_loop resultsIterator buffer true

/-- What `queryAllEmployees` does once its iterator is open (source lines 226-255): start
the buffer with `[`, run the loop, close with `]`, return the buffer. -/
def queryAllEmployees_assemble (resultsIterator : Iterator) : Outcome :=
  let buffer := ""
  let buffer := buffer ++ "["
  match queryAllEmployees_loop resultsIterator buffer false with
  | Except.error err => Outcome.Error err
  | Except.ok buffer =>
    let buffer := buffer ++ "]"
    Outcome.Success buffer

/-- Source lines 216-256. -/
def queryAllEmployees (APIstub : Stub) : Outcome × Stub :=
  let startKey := "EMP1001"
  let endKey := "EMP1006"
  match APIstub.GetStateByRange startKey endKey with
  | (Except.error err, APIstub) => (Outcome.Error err, APIstub)
  | (Except.ok resultsIterator, APIstub) =>
    (queryAllEmployees_assemble resultsIterator, APIstub)

/-- The `for resultsIterator.HasNext()` loop of `queryAllOffices` (source lines 278-297):
the buffer and the `bArrayMemberAlreadyWritten` flag are threaded through; an
error from `Next()` ends the handler with that error. -/
def queryAllOffices_loop : Iterator → String → Bool → Except String String
  | [], buffer, _ => Except.ok buffer
  | Except.error err :: _, _, _ => Except.error err
  | Except.ok queryResponse :: resultsIterator, buffer, bArrayMemberAlreadyWritten =>
    let buffer := if bArrayMemberAlreadyWritten = true then buffer ++ "," else buffer
    let buffer := buffer ++ "\x7b\"Key\":"
    let buffer := buffer ++ "\""
    let buffer := buffer ++ queryResponse.Key
    let buffer := buffer ++ "\""
    let buffer := buffer ++ ", \"Record\":"
    let buffer := buffer ++ queryResponse.Value
    let buffer := buffer ++ "\x7d"
    queryAllOffices_loop resultsIterator buffer true

/-- What `queryAllOffices` does once its iterator is open (source lines 273-302): start
the buffer with `[`, run the loop, close with `]`, return the buffer. -/
def queryAllOffices_assemble (resultsIterator : Iterator) : Outcome :=
  let buffer := ""
  let buffer := buffer ++ "["
  match queryAllOffices_loop resultsIterator buffer false with
  | Except.error err => Outcome.Error err
  | Except.ok buffer =>
    let buffer := buffer ++ "]"
    Outcome.Success buffer

/-- Source lines 263-303. -/
def queryAllOffices (APIstub : Stub) : Outcome × Stub :=
  let startKey := "OFF1"
  let endKey := "OFF3"
  match APIstub.GetStateByRange startKey endKey with
  | (Except.error err, APIstub) => (Outcome.Error err, APIstub)
  | (Except.ok resultsIterator, APIstub) =>
    (queryAllOffices_assemble resultsIterator, APIstub)

/-- The `for resultsIterator.HasNext()` loop of `queryEmployeeOfficeName` (source lines 338-357):
the buffer and the `bArrayMemberAlreadyWritten` flag are threaded through; an
error from `Next()` ends the handler with that error. -/
def queryEmployeeOfficeName_loop : Iterator → String → Bool → Except String String
  | [], buffer, _ => Except.ok buffer
  | Except.error err :: _, _, _ => Except.error err
  | Except.ok queryResponse :: resultsIterator, buffer, bArrayMemberAlreadyWritten =>
    let buffer := if bArrayMemberAlreadyWritten = true then buffer ++ "," else buffer
    let buffer := buffer ++ "\x7b\"Key\":"
    let buffer := buffer ++ "\""
    let buffer := buffer ++ queryResponse.Key
    let buffer := buffer ++ "\""
    let buffer := buffer ++ ", \"Record\":"
    let buffer := buffer ++ queryResponse.Value
    let buffer := buffer ++ "\x7d"
    queryEmployeeOfficeName_loop resultsIterator buffer true

/-- What `queryEmployeeOfficeName` does once its iterator is open (source lines 333-362): start
the buffer with `[`, run the loop, close with `]`, return the buffer. -/
def queryEmployeeOfficeName_assemble (resultsIterator : Iterator) : Outcome :=
  let buffer := ""
  let buffer := buffer ++ "["
  match queryEmployeeOfficeName_loop resultsIterator buffer false with
  | Except.error err => Outcome.Error err
  | Except.ok buffer =>
    let buffer := buffer ++ "]"
    Outcome.Success buffer

/-- Source lines 310-363. -/
def queryEmployeeOfficeName (env : Env) (APIstub : Stub) (args : List String) :
    Outcome × Stub :=
  if args.length ≠ 1 then
    (Outcome.Error "Incorrect number of arguments. Expecting 1", APIstub)
  else
    index args 1 APIstub fun a1 =>
    match APIstub.GetState a1 with
    | (empAsBytes, APIstub) =>
    let emp := env.UnmarshalEmployee empAsBytes
    match APIstub.GetState emp.OfficeID with
    | (officeAsBytes, APIstub) =>
    let office := env.UnmarshalOffice officeAsBytes
    let queryString :=
      "\x7b\"selector\":\x7b\"docType\":\"office\",\"officeId\":\"" ++ office.OfficeID ++
        "\"\x7d\x7d"
    match Stub.GetQueryResult env APIstub queryString with
    | (Except.error err, APIstub) => (Outcome.Error err, APIstub)
    | (Except.ok resultsIterator, APIstub) =>
      (queryEmployeeOfficeName_assemble resultsIterator, APIstub)

/-- The `for resultsIterator.HasNext()` loop of `queryEmployeesInOffice` (source lines 390-409):
the buffer and the `bArrayMemberAlreadyWritten` flag are threaded through; an
error from `Next()` ends the handler with that error. -/
def queryEmployeesInOffice_loop : Iterator → String → Bool → Except String String
  | [], buffer, _ => Except.ok buffer
  | Except.error err :: _, _, _ => Except.error err
  | Except.ok queryResponse :: resultsIterator, buffer, bArrayMemberAlreadyWritten =>
    let buffer := if bArrayMemberAlreadyWritten = true then buffer ++ "," else buffer
    let buffer := buffer ++ "\x7b\"Key\":"
    let buffer := buffer ++ "\""
    let buffer := buffer ++ queryResponse.Key
    let buffer := buffer ++ "\""
    let buffer := buffer ++ ", \"Record\":"
    let buffer := buffer ++ queryResponse.Value
    let buffer := buffer ++ "\x7d"
    queryEmployeesInOffice_loop resultsIterator buffer true

/-- What `queryEmployeesInOffice` does once its iterator is open (source lines 385-414): start
the buffer with `[`, run the loop, close with `]`, return the buffer. -/
def queryEmployeesInOffice_assemble (resultsIterator : Iterator) : Outcome :=
  let buffer := ""
  let buffer := buffer ++ "["
  match queryEmployeesInOffice_loop resultsIterator buffer false with
  | Except.error err => Outcome.Error err
  | Except.ok buffer =>
    let buffer := buffer ++ "]"
    Outcome.Success buffer

/-- Source lines 370-415. -/
def queryEmployeesInOffice (env : Env) (APIstub : Stub) (args : List String) :
    Outcome × Stub :=
  if args.length ≠ 1 then
    (Outcome.Error "Incorrect number of arguments. Expecting 1", APIstub)
  else
    index args 1 APIstub fun a1 =>
    let queryString :=
      "\x7b\"selector\":\x7b\"docType\":\"employee\",\"officeId\":\"" ++ a1 ++ "\"\x7d\x7d"
    match Stub.GetQueryResult env APIstub queryString with
    | (Except.error err, APIstub) => (Outcome.Error err, APIstub)
    | (Except.ok resultsIterator, APIstub) =>
      (queryEmployeesInOffice_assemble resultsIterator, APIstub)

/-! ## Dispatcher (source lines 50-84) -/

/-- Source lines 50-52. -/
def Init (APIstub : Stub) : Outcome × Stub :=
  (Outcome.Success "", APIstub)

/-- Source lines 58-84; `function` and `args` are what
`APIstub.GetFunctionAndParameters()` returns. -/
def Invoke (env : Env) (APIstub : Stub) (function : String) (args : List String) :
    Outcome × Stub :=
  if function = "createEmployee" then
    createEmployee APIstub args
  else if function = "initLedger" then
    initLedger APIstub
  else if function = "createOffice" then
    createOffice APIstub args
  else if function = "assignOffice" then
    assignOffice env APIstub args
  else if function = "updateEmployee" then
    updateEmployee env APIstub args
  else if function = "queryAllEmployees" then
    queryAllEmployees APIstub
  else if function = "queryAllOffice" then
    queryAllOffices APIstub
  else if function = "queryEmployeeOfficeName" then
    queryEmployeeOfficeName env APIstub args
  else if function = "queryEmployeesInOffice" then
    queryEmployeesInOffice env APIstub args
  else
    (Outcome.Error "Invalid Smart Contract function name.", APIstub)

/-! ## Specification-side definitions -/

/-- The operation names `Invoke` compares `function` against (source lines 63-79),
in source order. -/
def routed : List String :=
  ["createEmployee", "initLedger", "createOffice", "assignOffice", "updateEmployee",
   "queryAllEmployees", "queryAllOffice", "queryEmployeeOfficeName",
   "queryEmployeesInOffice"]

/-- The result element the specification gives for one hit:
`{"Key":"<key>", "Record":<raw value>}`. -/
def element (hit : KV) : String :=
  "\x7b\"Key\":\"" ++ hit.Key ++ "\", \"Record\":" ++ hit.Value ++ "\x7d"

/-- The result envelope the specification gives for a sequence of hits: `[`, the
elements joined by `,`, `]`. -/
def envelope (hits : List KV) : String :=
  "[" ++ ",".intercalate (hits.map element) ++ "]"

/-- The text the loop has appended after the first element: each further
element preceded by its comma. -/
def continuation : List KV → String
  | [] => ""
  | hit :: hits => "," ++ element hit ++ continuation hits

/-- The keys `initLedger` writes, in the order it writes them. -/
def seedKeys : List String :=
  ["EMPLOYEE0", "EMPLOYEE1", "EMPLOYEE2", "EMPLOYEE3", "EMPLOYEE4", "EMPLOYEE5",
   "OFFICE0", "OFFICE1", "OFFICE2"]

/-- The key/value pairs `initLedger` writes, in the order it writes them. -/
def seedBindings : List (String × String) :=
  seedKeys.zip (employees.map MarshalEmployee ++ offices.map MarshalOffice)

/-- Writing a list of bindings in order, each by `put`. -/
def putAll (bindings : List (String × String)) (state : WorldState) : WorldState :=
  bindings.foldl (fun s kv => put kv.1 kv.2 s) state

/-- The walk `put key value` makes through the world state ends on the binding
`(key, value)` itself: no earlier key is equal to or greater than `key`. -/
def settled (key value : String) : WorldState → Prop
  | [] => False
  | (k, v) :: rest =>
    if key = k then value = v
    else if key.toList < k.toList then False
    else settled key value rest

/-- No write between two stubs: the world state is the same and every `PutState`
call on record was already on record before. -/
def neverWrites (before after : Stub) : Prop :=
  after.state = before.state ∧
  ∀ key value, Access.PutState key value ∈ after.accesses →
    Access.PutState key value ∈ before.accesses

/-! ## Auxiliary lemmas -/

theorem intercalate_go_elements (acc : String) (hits : List KV) :
    String.intercalate.go acc "," (hits.map element) = acc ++ continuation hits := by
  induction hits generalizing acc with
  | nil => simp [String.intercalate.go, continuation]
  | cons hit hits ih =>
    simp only [List.map_cons, String.intercalate.go, continuation]
    rw [ih]
    simp only [String.append_assoc]

theorem envelope_nil : envelope [] = "[]" := by
  decide

theorem envelope_cons (hit : KV) (hits : List KV) :
    envelope (hit :: hits) = "[" ++ element hit ++ continuation hits ++ "]" := by
  simp only [envelope, List.map_cons, String.intercalate, intercalate_go_elements,
    String.append_assoc]

/-- One pass of the loop body appends the comma, if due, and the element. -/
theorem queryAllEmployees_loop_cons (hit : KV) (it : Iterator) (buffer : String) (written : Bool) :
    queryAllEmployees_loop (Except.ok hit :: it) buffer written =
      queryAllEmployees_loop it
        ((if written = true then buffer ++ "," else buffer) ++ element hit) true := by
  have key : ("\x7b\"Key\":" : String) ++ "\"" = "\x7b\"Key\":\"" := by decide
  have rec : ("\"" : String) ++ ", \"Record\":" = "\", \"Record\":" := by decide
  simp only [queryAllEmployees_loop, element]
  congr 1
  rw [← key, ← rec]
  simp only [String.append_assoc]

theorem queryAllEmployees_loop_hits (hits : List KV) (buffer : String) :
    queryAllEmployees_loop (hits.map Except.ok) buffer true =
      Except.ok (buffer ++ continuation hits) := by
  induction hits generalizing buffer with
  | nil => simp [queryAllEmployees_loop, continuation]
  | cons hit hits ih =>
    rw [List.map_cons, queryAllEmployees_loop_cons, ih]
    simp only [continuation, if_true, String.append_assoc]

theorem queryAllEmployees_assemble_hits (hits : List KV) :
    queryAllEmployees_assemble (hits.map Except.ok) = Outcome.Success (envelope hits) := by
  cases hits with
  | nil => decide
  | cons hit hits =>
    simp only [queryAllEmployees_assemble, List.map_cons, queryAllEmployees_loop_cons,
      queryAllEmployees_loop_hits, envelope_cons]
    simp [String.append_assoc]

theorem queryAllOffices_loop_eq (it : Iterator) (buffer : String) (written : Bool) :
    queryAllOffices_loop it buffer written = queryAllEmployees_loop it buffer written := by
  induction it generalizing buffer written with
  | nil => rfl
  | cons r it ih =>
    cases r with
    | error err => rfl
    | ok hit => simp only [queryAllOffices_loop, queryAllEmployees_loop, ih]

theorem queryEmployeeOfficeName_loop_eq (it : Iterator) (buffer : String) (written : Bool) :
    queryEmployeeOfficeName_loop it buffer written =
      queryAllEmployees_loop it buffer written := by
  induction it generalizing buffer written with
  | nil => rfl
  | cons r it ih =>
    cases r with
    | error err => rfl
    | ok hit => simp only [queryEmployeeOfficeName_loop, queryAllEmployees_loop, ih]

theorem queryEmployeesInOffice_loop_eq (it : Iterator) (buffer : String) (written : Bool) :
    queryEmployeesInOffice_loop it buffer written =
      queryAllEmployees_loop it buffer written := by
  induction it generalizing buffer written with
  | nil => rfl
  | cons r it ih =>
    cases r with
    | error err => rfl
    | ok hit => simp only [queryEmployeesInOffice_loop, queryAllEmployees_loop, ih]

theorem queryAllOffices_assemble_eq (it : Iterator) :
    queryAllOffices_assemble it = queryAllEmployees_assemble it := by
  simp only [queryAllOffices_assemble, queryAllEmployees_assemble, queryAllOffices_loop_eq]

theorem queryEmployeeOfficeName_assemble_eq (it : Iterator) :
    queryEmployeeOfficeName_assemble it = queryAllEmployees_assemble it := by
  simp only [queryEmployeeOfficeName_assemble, queryAllEmployees_assemble,
    queryEmployeeOfficeName_loop_eq]

theorem queryEmployeesInOffice_assemble_eq (it : Iterator) :
    queryEmployeesInOffice_assemble it = queryAllEmployees_assemble it := by
  simp only [queryEmployeesInOffice_assemble, queryAllEmployees_assemble,
    queryEmployeesInOffice_loop_eq]

theorem range_eq_nil (startKey endKey : String) (state : WorldState)
    (h : ∀ kv ∈ state, ¬ (startKey.toList ≤ kv.1.toList ∧ kv.1.toList < endKey.toList)) :
    range startKey endKey state = [] := by
  simp only [range, List.filter_eq_nil_iff, Bool.and_eq_true, decide_eq_true_eq]
  exact h

theorem length_five {l : List String} (h : l.length = 5) :
    ∃ a0 a1 a2 a3 a4, l = [a0, a1, a2, a3, a4] := by
  rcases l with _ | ⟨a0, _ | ⟨a1, _ | ⟨a2, _ | ⟨a3, _ | ⟨a4, _ | ⟨a5, t⟩⟩⟩⟩⟩⟩ <;>
    simp at h
  exact ⟨a0, a1, a2, a3, a4, rfl⟩

theorem length_six {l : List String} (h : l.length = 6) :
    ∃ a0 a1 a2 a3 a4 a5, l = [a0, a1, a2, a3, a4, a5] := by
  rcases l with _ | ⟨a0, _ | ⟨a1, _ | ⟨a2, _ | ⟨a3, _ | ⟨a4, _ | ⟨a5, _ | ⟨a6, t⟩⟩⟩⟩⟩⟩⟩ <;>
    simp at h
  exact ⟨a0, a1, a2, a3, a4, a5, rfl⟩

theorem length_two {l : List String} (h : l.length = 2) : ∃ a0 a1, l = [a0, a1] := by
  rcases l with _ | ⟨a0, _ | ⟨a1, _ | ⟨a2, t⟩⟩⟩ <;> simp at h
  exact ⟨a0, a1, rfl⟩

theorem length_one {l : List String} (h : l.length = 1) : ∃ a0, l = [a0] := by
  rcases l with _ | ⟨a0, _ | ⟨a1, t⟩⟩ <;> simp at h
  exact ⟨a0, rfl⟩

/-- What `createEmployee` does on any argument list. -/
theorem createEmployee_eq (APIstub : Stub) (args : List String) :
    createEmployee APIstub args =
      if args.length ≠ 5 then
        (Outcome.Error "Incorrect number of arguments. Expecting 5", APIstub)
      else (Outcome.Panic 5 5, APIstub) := by
  by_cases h : args.length = 5
  · obtain ⟨a0, a1, a2, a3, a4, rfl⟩ := length_five h
    rfl
  · simp [createEmployee, h]

/-- What `updateEmployee` does on any argument list. -/
theorem updateEmployee_eq (env : Env) (APIstub : Stub) (args : List String) :
    updateEmployee env APIstub args =
      if args.length ≠ 5 then
        (Outcome.Error "Incorrect number of arguments. Expecting 5", APIstub)
      else (Outcome.Panic 5 5, (APIstub.GetState (args.getD 1 "")).2) := by
  by_cases h : args.length = 5
  · obtain ⟨a0, a1, a2, a3, a4, rfl⟩ := length_five h
    rfl
  · simp [updateEmployee, h]

/-- What `assignOffice` does on any argument list. -/
theorem assignOffice_eq (env : Env) (APIstub : Stub) (args : List String) :
    assignOffice env APIstub args =
      if args.length ≠ 2 then
        (Outcome.Error "Incorrect number of arguments. Expecting 2", APIstub)
      else (Outcome.Panic 2 2, (APIstub.GetState (args.getD 1 "")).2) := by
  by_cases h : args.length = 2
  · obtain ⟨a0, a1, rfl⟩ := length_two h
    rfl
  · simp [assignOffice, h]

/-- What `createOffice` does on any argument list. -/
theorem createOffice_eq (APIstub : Stub) (args : List String) :
    createOffice APIstub args =
      if args.length ≠ 6 then
        (Outcome.Error "Incorrect number of arguments. Expecting 6", APIstub)
      else (Outcome.Panic 6 6, APIstub) := by
  by_cases h : args.length = 6
  · obtain ⟨a0, a1, a2, a3, a4, a5, rfl⟩ := length_six h
    rfl
  · simp [createOffice, h]

/-- What `queryEmployeeOfficeName` does on any argument list. -/
theorem queryEmployeeOfficeName_eq (env : Env) (APIstub : Stub) (args : List String) :
    queryEmployeeOfficeName env APIstub args =
      if args.length ≠ 1 then
        (Outcome.Error "Incorrect number of arguments. Expecting 1", APIstub)
      else (Outcome.Panic 1 1, APIstub) := by
  by_cases h : args.length = 1
  · obtain ⟨a0, rfl⟩ := length_one h
    rfl
  · simp [queryEmployeeOfficeName, h]

/-- What `queryEmployeesInOffice` does on any argument list. -/
theorem queryEmployeesInOffice_eq (env : Env) (APIstub : Stub) (args : List String) :
    queryEmployeesInOffice env APIstub args =
      if args.length ≠ 1 then
        (Outcome.Error "Incorrect number of arguments. Expecting 1", APIstub)
      else (Outcome.Panic 1 1, APIstub) := by
  by_cases h : args.length = 1
  · obtain ⟨a0, rfl⟩ := length_one h
    rfl
  · simp [queryEmployeesInOffice, h]

/-! ### The world state under `put` -/

theorem lookup_put_self (key value : String) (state : WorldState) :
    lookup key (put key value state) = some value := by
  induction state with
  | nil => simp [put, lookup]
  | cons kv rest ih =>
    obtain ⟨k, v⟩ := kv
    simp only [put]
    split_ifs with h1 h2
    · simp [lookup]
    · simp [lookup]
    · simp [lookup, h1, ih]

theorem lookup_put_other (key value other : String) (h : other ≠ key) (state : WorldState) :
    lookup other (put key value state) = lookup other state := by
  induction state with
  | nil => simp [put, lookup, h]
  | cons kv rest ih =>
    obtain ⟨k, v⟩ := kv
    simp only [put]
    split_ifs with h1 h2
    · subst h1
      simp [lookup, h]
    · simp [lookup, h]
    · simp [lookup, ih]

theorem putAll_cons (kv : String × String) (bindings : List (String × String))
    (state : WorldState) :
    putAll (kv :: bindings) state = putAll bindings (put kv.1 kv.2 state) := rfl

theorem lookup_putAll_other (other : String) (bindings : List (String × String))
    (h : other ∉ bindings.map Prod.fst) (state : WorldState) :
    lookup other (putAll bindings state) = lookup other state := by
  induction bindings generalizing state with
  | nil => rfl
  | cons kv bindings ih =>
    simp only [List.map_cons, List.mem_cons, not_or] at h
    rw [putAll_cons, ih h.2, lookup_put_other _ _ _ h.1]

theorem lookup_putAll_mem (bindings : List (String × String))
    (nodup : (bindings.map Prod.fst).Nodup) (kv : String × String) (mem : kv ∈ bindings)
    (state : WorldState) :
    lookup kv.1 (putAll bindings state) = some kv.2 := by
  induction bindings generalizing state with
  | nil => cases mem
  | cons b bindings ih =>
    simp only [List.map_cons, List.nodup_cons] at nodup
    rw [putAll_cons]
    rcases List.mem_cons.1 mem with rfl | mem
    · rw [lookup_putAll_other _ _ nodup.1, lookup_put_self]
    · exact ih nodup.2 mem _

theorem lookups_putAll (bindings : List (String × String))
    (nodup : (bindings.map Prod.fst).Nodup) (state : WorldState) :
    (bindings.map Prod.fst).map (fun key => lookup key (putAll bindings state)) =
      (bindings.map Prod.snd).map some := by
  rw [List.map_map, List.map_map]
  apply List.map_congr_left
  intro kv mem
  exact lookup_putAll_mem bindings nodup kv mem state

theorem put_of_settled (key value : String) (state : WorldState)
    (h : settled key value state) : put key value state = state := by
  induction state with
  | nil => cases h
  | cons kv rest ih =>
    obtain ⟨k, v⟩ := kv
    simp only [settled] at h
    simp only [put]
    split_ifs at h ⊢ with h1 h2
    · subst h1 h
      rfl
    · rw [ih h]

theorem settled_put_self (key value : String) (state : WorldState) :
    settled key value (put key value state) := by
  induction state with
  | nil => simp [put, settled]
  | cons kv rest ih =>
    obtain ⟨k, v⟩ := kv
    simp only [put]
    split_ifs with h1 h2
    · simp [settled]
    · simp [settled]
    · simp only [settled, if_neg h1, if_neg h2]
      exact ih

theorem settled_put_other (key value other otherValue : String) (ne : key ≠ other)
    (state : WorldState) (h : settled key value state) :
    settled key value (put other otherValue state) := by
  induction state with
  | nil => cases h
  | cons kv rest ih =>
    obtain ⟨k, v⟩ := kv
    have h0 := h
    simp only [settled] at h
    simp only [put]
    by_cases hk : key = k
    · have hok : ¬ other = k := fun e => ne (hk.trans e.symm)
      rw [if_neg hok]
      by_cases ho : other.toList < k.toList
      · rw [if_pos ho]
        have hlt : ¬ key.toList < other.toList := by
          rw [hk]
          exact lt_asymm ho
        simp only [settled, if_neg ne, if_neg hlt]
        simpa only [settled] using h0
      · rw [if_neg ho]
        simp only [settled, if_pos hk]
        simpa only [if_pos hk] using h
    · rw [if_neg hk] at h
      by_cases hlt : key.toList < k.toList
      · rw [if_pos hlt] at h
        cases h
      · rw [if_neg hlt] at h
        by_cases hok : other = k
        · rw [if_pos hok]
          have hlt2 : ¬ key.toList < other.toList := by
            rw [hok]
            exact hlt
          simp only [settled, if_neg ne, if_neg hlt2]
          exact h
        · rw [if_neg hok]
          by_cases ho : other.toList < k.toList
          · rw [if_pos ho]
            have hlt2 : ¬ key.toList < other.toList := fun lt => hlt (lt_trans lt ho)
            simp only [settled, if_neg ne, if_neg hlt2, if_neg hk, if_neg hlt]
            exact h
          · rw [if_neg ho]
            simp only [settled, if_neg hk, if_neg hlt]
            exact ih h

theorem settled_putAll_other (key value : String) (bindings : List (String × String))
    (notin : key ∉ bindings.map Prod.fst) (state : WorldState)
    (h : settled key value state) : settled key value (putAll bindings state) := by
  induction bindings generalizing state with
  | nil => exact h
  | cons b bindings ih =>
    simp only [List.map_cons, List.mem_cons, not_or] at notin
    rw [putAll_cons]
    exact ih notin.2 _ (settled_put_other _ _ _ _ notin.1 _ h)

theorem settled_putAll_mem (bindings : List (String × String))
    (nodup : (bindings.map Prod.fst).Nodup) (kv : String × String) (mem : kv ∈ bindings)
    (state : WorldState) : settled kv.1 kv.2 (putAll bindings state) := by
  induction bindings generalizing state with
  | nil => cases mem
  | cons b bindings ih =>
    simp only [List.map_cons, List.nodup_cons] at nodup
    rw [putAll_cons]
    rcases List.mem_cons.1 mem with rfl | mem
    · exact settled_putAll_other _ _ _ nodup.1 _ (settled_put_self _ _ _)
    · exact ih nodup.2 mem _

theorem putAll_of_settled (bindings : List (String × String)) (state : WorldState)
    (h : ∀ kv ∈ bindings, settled kv.1 kv.2 state) : putAll bindings state = state := by
  induction bindings with
  | nil => rfl
  | cons b bindings ih =>
    rw [putAll_cons, put_of_settled _ _ _ (h b (List.mem_cons_self _ _))]
    exact ih fun kv mem => h kv (List.mem_cons_of_mem _ mem)

theorem putAll_idempotent (bindings : List (String × String))
    (nodup : (bindings.map Prod.fst).Nodup) (state : WorldState) :
    putAll bindings (putAll bindings state) = putAll bindings state :=
  putAll_of_settled _ _ fun kv mem => settled_putAll_mem bindings nodup kv mem state

theorem initLedger_state (APIstub : Stub) :
    (initLedger APIstub).2.state = putAll seedBindings APIstub.state := rfl

theorem seedBindings_keys : seedBindings.map Prod.fst = seedKeys := by
  decide

theorem seedBindings_values :
    seedBindings.map Prod.snd = employees.map MarshalEmployee ++ offices.map MarshalOffice := by
  decide

theorem seedKeys_nodup : seedKeys.Nodup := by
  decide

/-! ## The claims -/

/-- C1 (code bug). `createEmployee` does not store anything for a 6-element
argument list `[key, empId, firstName, lastName, dateOfJoining, officeId]`: the
length check at source line 133 compares against 5, so every such call ends in
the argument-count error and leaves the stub as it was. -/
theorem createEmployee_rejects_six_arguments (APIstub : Stub)
    (key empId firstName lastName dateOfJoining officeId : String) :
    createEmployee APIstub [key, empId, firstName, lastName, dateOfJoining, officeId] =
      (Outcome.Error "Incorrect number of arguments. Expecting 5", APIstub) := by
  rfl

/-- C2 (code bug). `updateEmployee` rejects every 6-element argument list
`[key, sourceKey, firstName, lastName, dateOfJoining, officeId]` with the
argument-count error (source line 152 compares against 5); nothing is read or
written. -/
theorem updateEmployee_rejects_six_arguments (env : Env) (APIstub : Stub)
    (key sourceKey firstName lastName dateOfJoining officeId : String) :
    updateEmployee env APIstub [key, sourceKey, firstName, lastName, dateOfJoining, officeId] =
      (Outcome.Error "Incorrect number of arguments. Expecting 5", APIstub) := by
  rfl

/-- C3 (code bug). `assignOffice` rejects every 3-element argument list
`[key, sourceKey, officeId]` with the argument-count error (source line 178
compares against 2); nothing is read or written. -/
theorem assignOffice_rejects_three_arguments (env : Env) (APIstub : Stub)
    (key sourceKey officeId : String) :
    assignOffice env APIstub [key, sourceKey, officeId] =
      (Outcome.Error "Incorrect number of arguments. Expecting 2", APIstub) := by
  rfl

/-- C4 (code bug). At the lengths the handlers check for (5, 5, 2, 6), each of
which differs from the command's arity (6, 6, 3, 7), no argument-count error is
returned: the handler passes its length check and panics on the index one past
the end. The world state is unchanged in all four cases; `updateEmployee` and
`assignOffice` have read `args[1]` by then. -/
theorem commands_panic_at_checked_length (env : Env) (APIstub : Stub)
    (a0 a1 a2 a3 a4 a5 : String) :
    createEmployee APIstub [a0, a1, a2, a3, a4] = (Outcome.Panic 5 5, APIstub) ∧
    updateEmployee env APIstub [a0, a1, a2, a3, a4] =
      (Outcome.Panic 5 5, (APIstub.GetState a1).2) ∧
    assignOffice env APIstub [a0, a1] = (Outcome.Panic 2 2, (APIstub.GetState a1).2) ∧
    createOffice APIstub [a0, a1, a2, a3, a4, a5] = (Outcome.Panic 6 6, APIstub) ∧
    ((APIstub.GetState a1).2).state = APIstub.state :=
  ⟨rfl, rfl, rfl, rfl, rfl⟩

/-- C5. For every operation name that is not one of the nine names `Invoke`
routes, and for every argument list and stub, `Invoke` returns the failure
"Invalid Smart Contract function name." and hands the stub back untouched: the
world state is the same and no call (get, put, range scan, query) was made. -/
theorem Invoke_unknown_function (env : Env) (APIstub : Stub) (function : String)
    (args : List String) (h : function ∉ routed) :
    Invoke env APIstub function args =
      (Outcome.Error "Invalid Smart Contract function name.", APIstub) := by
  simp only [routed, List.mem_cons, List.mem_singleton, List.not_mem_nil, or_false,
    not_or] at h
  obtain ⟨h1, h2, h3, h4, h5, h6, h7, h8, h9⟩ := h
  simp only [Invoke, h1, h2, h3, h4, h5, h6, h7, h8, h9, if_false]

theorem Invoke_unknown_function_witness :
    "deleteEmployee" ∉ routed ∧
    Invoke sampleEnv ⟨[("EMPLOYEE0", "x")], []⟩ "deleteEmployee" ["EMPLOYEE0"] =
      (Outcome.Error "Invalid Smart Contract function name.", ⟨[("EMPLOYEE0", "x")], []⟩) :=
  ⟨by decide, Invoke_unknown_function sampleEnv _ _ _ (by decide)⟩

/-- C6 (code bug). The name `queryAllOffices` is not routed: `Invoke` answers it
with the unknown-function error and makes no call on the stub. The Office range
scan is reached under the name `queryAllOffice` (source line 75). -/
theorem Invoke_queryAllOffices_not_routed (env : Env) (APIstub : Stub) (args : List String) :
    Invoke env APIstub "queryAllOffices" args =
      (Outcome.Error "Invalid Smart Contract function name.", APIstub) ∧
    Invoke env APIstub "queryAllOffice" args = queryAllOffices APIstub :=
  ⟨rfl, rfl⟩

/-- C7 (code bug). After `initLedger` on the empty world state the records sit
under the keys `EMPLOYEE0`..`EMPLOYEE5` and `OFFICE0`..`OFFICE2`; none of these
lies between `EMP1001` and `EMP1006`, whether the upper bound is taken exclusive
or inclusive, and `queryAllEmployees` returns the empty envelope `[]`. -/
theorem queryAllEmployees_after_initLedger_is_empty :
    (initLedger ⟨[], []⟩).1 = Outcome.Success "" ∧
    (initLedger ⟨[], []⟩).2.state.map Prod.fst =
      ["EMPLOYEE0", "EMPLOYEE1", "EMPLOYEE2", "EMPLOYEE3", "EMPLOYEE4", "EMPLOYEE5",
       "OFFICE0", "OFFICE1", "OFFICE2"] ∧
    (∀ kv ∈ (initLedger ⟨[], []⟩).2.state,
      ¬ ("EMP1001".toList ≤ kv.1.toList ∧ kv.1.toList ≤ "EMP1006".toList)) ∧
    (queryAllEmployees (initLedger ⟨[], []⟩).2).1 = Outcome.Success "[]" := by
  decide

/-- C8. In each of the four query handlers, the code that runs once the iterator
is open turns every error-free sequence of hits into the success payload `[`,
the elements `{"Key":"<key>", "Record":<raw value>}` in iteration order
joined by `,`, then `]`; the two range scans return exactly that for the
bindings their scan yields. -/
theorem result_envelope_encoding (hits : List KV) (APIstub : Stub) :
    queryAllEmployees_assemble (hits.map Except.ok) = Outcome.Success (envelope hits) ∧
    queryAllOffices_assemble (hits.map Except.ok) = Outcome.Success (envelope hits) ∧
    queryEmployeeOfficeName_assemble (hits.map Except.ok) = Outcome.Success (envelope hits) ∧
    queryEmployeesInOffice_assemble (hits.map Except.ok) = Outcome.Success (envelope hits) ∧
    (queryAllEmployees APIstub).1 = Outcome.Success (envelope
      ((range "EMP1001" "EMP1006" APIstub.state).map fun kv => ⟨kv.1, kv.2⟩)) ∧
    (queryAllOffices APIstub).1 = Outcome.Success (envelope
      ((range "OFF1" "OFF3" APIstub.state).map fun kv => ⟨kv.1, kv.2⟩)) := by
  refine ⟨queryAllEmployees_assemble_hits hits, ?_, ?_, ?_, ?_, ?_⟩
  · rw [queryAllOffices_assemble_eq, queryAllEmployees_assemble_hits]
  · rw [queryEmployeeOfficeName_assemble_eq, queryAllEmployees_assemble_hits]
  · rw [queryEmployeesInOffice_assemble_eq, queryAllEmployees_assemble_hits]
  · simp only [queryAllEmployees, Stub.GetStateByRange]
    rw [← queryAllEmployees_assemble_hits, List.map_map]
    rfl
  · simp only [queryAllOffices, Stub.GetStateByRange]
    rw [queryAllOffices_assemble_eq, ← queryAllEmployees_assemble_hits, List.map_map]
    rfl

/-- C9. For every stub whose world state has no key `k` with
`EMP1001 ≤ k < EMP1006`, `queryAllEmployees` succeeds with the payload `[]`; for
every stub whose world state has no key `k` with `OFF1 ≤ k < OFF3`,
`queryAllOffices` succeeds with the payload `[]`. -/
theorem empty_range_scan (APIstub : Stub) :
    ((∀ kv ∈ APIstub.state,
        ¬ ("EMP1001".toList ≤ kv.1.toList ∧ kv.1.toList < "EMP1006".toList)) →
      (queryAllEmployees APIstub).1 = Outcome.Success "[]") ∧
    ((∀ kv ∈ APIstub.state,
        ¬ ("OFF1".toList ≤ kv.1.toList ∧ kv.1.toList < "OFF3".toList)) →
      (queryAllOffices APIstub).1 = Outcome.Success "[]") := by
  constructor
  · intro h
    simp only [queryAllEmployees, Stub.GetStateByRange, range_eq_nil _ _ _ h, List.map_nil]
    decide
  · intro h
    simp only [queryAllOffices, Stub.GetStateByRange, range_eq_nil _ _ _ h, List.map_nil]
    decide

theorem empty_range_scan_witness :
    ((queryAllEmployees ⟨[], []⟩).1 = Outcome.Success "[]" ∧
      (queryAllOffices ⟨[], []⟩).1 = Outcome.Success "[]") ∧
    ((queryAllEmployees ⟨[("EMP1006", "x"), ("OFFICE0", "y")], []⟩).1 = Outcome.Success "[]" ∧
      (queryAllOffices ⟨[("EMP1006", "x"), ("OFFICE0", "y")], []⟩).1 = Outcome.Success "[]") :=
  ⟨⟨(empty_range_scan ⟨[], []⟩).1 (by decide), (empty_range_scan ⟨[], []⟩).2 (by decide)⟩,
   ⟨(empty_range_scan ⟨[("EMP1006", "x"), ("OFFICE0", "y")], []⟩).1 (by decide),
    (empty_range_scan ⟨[("EMP1006", "x"), ("OFFICE0", "y")], []⟩).2 (by decide)⟩⟩

/-- C10 (code bug). `queryEmployeeOfficeName` called with a single argument
`[key]` never returns: it passes the length check (source line 312) and panics
on `args[1]` (source line 316) before any call on the stub, whether or not `key`
is in the world state. -/
theorem queryEmployeeOfficeName_single_argument_panics (env : Env) (APIstub : Stub)
    (key : String) :
    queryEmployeeOfficeName env APIstub [key] = (Outcome.Panic 1 1, APIstub) := by
  rfl

/-- C11 (code bug). On the seeded ledger, `queryEmployeesInOffice` called with
the argument list `["2"]` returns no envelope: it passes the length check
(source line 372) and panics on `args[1]` (source line 376) before the query is
built, whatever the state database would have answered. -/
theorem queryEmployeesInOffice_seeded_panics (env : Env) :
    queryEmployeesInOffice env (initLedger ⟨[], []⟩).2 ["2"] =
      (Outcome.Panic 1 1, (initLedger ⟨[], []⟩).2) :=
  rfl

/-- C12 (code bug). `queryEmployeeOfficeName` passes no predicate spec to the
store query, for any platform, stub and argument list: it ends in the
argument-count error (length other than 1) or panics on `args[1]` (length 1,
source line 316), and in both cases hands the stub back with no call made on
it. On the seeded ledger with the employee key `EMPLOYEE0` it is the panic. -/
theorem queryEmployeeOfficeName_passes_no_query (env : Env) (APIstub : Stub)
    (args : List String) (query : String) :
    (queryEmployeeOfficeName env APIstub args).2 = APIstub ∧
    (Access.GetQueryResult query ∈ (queryEmployeeOfficeName env APIstub args).2.accesses →
      Access.GetQueryResult query ∈ APIstub.accesses) ∧
    queryEmployeeOfficeName env (initLedger ⟨[], []⟩).2 ["EMPLOYEE0"] =
      (Outcome.Panic 1 1, (initLedger ⟨[], []⟩).2) := by
  have h : (queryEmployeeOfficeName env APIstub args).2 = APIstub := by
    rw [queryEmployeeOfficeName_eq]
    split <;> rfl
  refine ⟨h, ?_, rfl⟩
  rw [h]
  exact id

/-- C13. For every stub, `initLedger` succeeds; afterwards the keys
`EMPLOYEE0`..`EMPLOYEE5`, `OFFICE0`..`OFFICE2` hold, in that order, the serialised
six Employee records (empId `EMP1001`..`EMP1006`) and three Office records
(officeId `OFF1`..`OFF3`) of the source, and every other key has the value it had
before. -/
theorem initLedger_seeds (APIstub : Stub) (key : String) :
    (initLedger APIstub).1 = Outcome.Success "" ∧
    seedKeys.map (fun k => lookup k (initLedger APIstub).2.state) =
      (employees.map MarshalEmployee ++ offices.map MarshalOffice).map some ∧
    employees.map (fun emp => emp.EmployeeID) =
      ["EMP1001", "EMP1002", "EMP1003", "EMP1004", "EMP1005", "EMP1006"] ∧
    offices.map (fun office => office.OfficeID) = ["OFF1", "OFF2", "OFF3"] ∧
    (key ∉ seedKeys →
      lookup key (initLedger APIstub).2.state = lookup key APIstub.state) := by
  refine ⟨rfl, ?_, by decide, by decide, ?_⟩
  · rw [initLedger_state, ← seedBindings_keys, ← seedBindings_values]
    exact lookups_putAll _ (seedBindings_keys ▸ seedKeys_nodup) _
  · intro h
    rw [initLedger_state]
    exact lookup_putAll_other _ _ (seedBindings_keys ▸ h) _

theorem initLedger_seeds_witness :
    "EMP1001" ∉ seedKeys ∧
    lookup "EMP1001" (initLedger ⟨[("EMP1001", "x"), ("EMPLOYEE0", "y")], []⟩).2.state =
      some "x" ∧
    lookup "EMPLOYEE0" (initLedger ⟨[("EMP1001", "x"), ("EMPLOYEE0", "y")], []⟩).2.state =
      some (MarshalEmployee ⟨"EMP1001", "Vineet", "Timble", "01/01/2000", "3"⟩) :=
  ⟨by decide,
   ((initLedger_seeds ⟨[("EMP1001", "x"), ("EMPLOYEE0", "y")], []⟩ "EMP1001").2.2.2.2
      (by decide)).trans (by decide),
   by decide⟩

/-- C14. Each argument-taking handler accepts only argument lists of the
length N its check names (5, 5, 2, 6, 1, 1) and then panics on `args[N]`; so for
every argument list it ends in the argument-count error or in that panic, never
in a success result, and it never writes: the world state is unchanged and no
`PutState` call is made. -/
theorem off_by_one_handlers_never_succeed (env : Env) (APIstub : Stub) (args : List String)
    (payload : String) :
    ((createEmployee APIstub args).1 =
        (if args.length ≠ 5 then Outcome.Error "Incorrect number of arguments. Expecting 5"
         else Outcome.Panic 5 5) ∧
      (createEmployee APIstub args).1 ≠ Outcome.Success payload ∧
      neverWrites APIstub (createEmployee APIstub args).2) ∧
    ((updateEmployee env APIstub args).1 =
        (if args.length ≠ 5 then Outcome.Error "Incorrect number of arguments. Expecting 5"
         else Outcome.Panic 5 5) ∧
      (updateEmployee env APIstub args).1 ≠ Outcome.Success payload ∧
      neverWrites APIstub (updateEmployee env APIstub args).2) ∧
    ((assignOffice env APIstub args).1 =
        (if args.length ≠ 2 then Outcome.Error "Incorrect number of arguments. Expecting 2"
         else Outcome.Panic 2 2) ∧
      (assignOffice env APIstub args).1 ≠ Outcome.Success payload ∧
      neverWrites APIstub (assignOffice env APIstub args).2) ∧
    ((createOffice APIstub args).1 =
        (if args.length ≠ 6 then Outcome.Error "Incorrect number of arguments. Expecting 6"
         else Outcome.Panic 6 6) ∧
      (createOffice APIstub args).1 ≠ Outcome.Success payload ∧
      neverWrites APIstub (createOffice APIstub args).2) ∧
    ((queryEmployeeOfficeName env APIstub args).1 =
        (if args.length ≠ 1 then Outcome.Error "Incorrect number of arguments. Expecting 1"
         else Outcome.Panic 1 1) ∧
      (queryEmployeeOfficeName env APIstub args).1 ≠ Outcome.Success payload ∧
      neverWrites APIstub (queryEmployeeOfficeName env APIstub args).2) ∧
    ((queryEmployeesInOffice env APIstub args).1 =
        (if args.length ≠ 1 then Outcome.Error "Incorrect number of arguments. Expecting 1"
         else Outcome.Panic 1 1) ∧
      (queryEmployeesInOffice env APIstub args).1 ≠ Outcome.Success payload ∧
      neverWrites APIstub (queryEmployeesInOffice env APIstub args).2) := by
  rw [createEmployee_eq, updateEmployee_eq, assignOffice_eq, createOffice_eq,
    queryEmployeeOfficeName_eq, queryEmployeesInOffice_eq]
  refine ⟨?_, ?_, ?_, ?_, ?_, ?_⟩ <;> split <;> simp [neverWrites, Stub.GetState]

/-- C15. For every handler that takes arguments and every argument list whose
length is not the count N the handler checks for (5, 5, 2, 6, 1, 1), the handler
returns the error "Incorrect number of arguments. Expecting N" and hands the
stub back as it was: same world state, and no call (get, put, range scan,
query) added to its record. -/
theorem argument_count_checked_first (env : Env) (APIstub : Stub) (args : List String) :
    (args.length ≠ 5 → createEmployee APIstub args =
      (Outcome.Error "Incorrect number of arguments. Expecting 5", APIstub)) ∧
    (args.length ≠ 5 → updateEmployee env APIstub args =
      (Outcome.Error "Incorrect number of arguments. Expecting 5", APIstub)) ∧
    (args.length ≠ 2 → assignOffice env APIstub args =
      (Outcome.Error "Incorrect number of arguments. Expecting 2", APIstub)) ∧
    (args.length ≠ 6 → createOffice APIstub args =
      (Outcome.Error "Incorrect number of arguments. Expecting 6", APIstub)) ∧
    (args.length ≠ 1 → queryEmployeeOfficeName env APIstub args =
      (Outcome.Error "Incorrect number of arguments. Expecting 1", APIstub)) ∧
    (args.length ≠ 1 → queryEmployeesInOffice env APIstub args =
      (Outcome.Error "Incorrect number of arguments. Expecting 1", APIstub)) := by
  refine ⟨?_, ?_, ?_, ?_, ?_, ?_⟩ <;> intro h
  · rw [createEmployee_eq, if_pos h]
  · rw [updateEmployee_eq, if_pos h]
  · rw [assignOffice_eq, if_pos h]
  · rw [createOffice_eq, if_pos h]
  · rw [queryEmployeeOfficeName_eq, if_pos h]
  · rw [queryEmployeesInOffice_eq, if_pos h]

theorem argument_count_checked_first_witness :
    createEmployee ⟨[("EMPLOYEE0", "x")], []⟩ ["EMPLOYEE0", "EMP1001", "2"] =
      (Outcome.Error "Incorrect number of arguments. Expecting 5", ⟨[("EMPLOYEE0", "x")], []⟩) ∧
    updateEmployee sampleEnv ⟨[("EMPLOYEE0", "x")], []⟩ ["EMPLOYEE0", "EMP1001", "2"] =
      (Outcome.Error "Incorrect number of arguments. Expecting 5", ⟨[("EMPLOYEE0", "x")], []⟩) ∧
    assignOffice sampleEnv ⟨[("EMPLOYEE0", "x")], []⟩ ["EMPLOYEE0", "EMP1001", "2"] =
      (Outcome.Error "Incorrect number of arguments. Expecting 2", ⟨[("EMPLOYEE0", "x")], []⟩) ∧
    createOffice ⟨[("EMPLOYEE0", "x")], []⟩ ["EMPLOYEE0", "EMP1001", "2"] =
      (Outcome.Error "Incorrect number of arguments. Expecting 6", ⟨[("EMPLOYEE0", "x")], []⟩) ∧
    queryEmployeeOfficeName sampleEnv ⟨[("EMPLOYEE0", "x")], []⟩ ["EMPLOYEE0", "EMP1001", "2"] =
      (Outcome.Error "Incorrect number of arguments. Expecting 1", ⟨[("EMPLOYEE0", "x")], []⟩) ∧
    queryEmployeesInOffice sampleEnv ⟨[("EMPLOYEE0", "x")], []⟩ ["EMPLOYEE0", "EMP1001", "2"] =
      (Outcome.Error "Incorrect number of arguments. Expecting 1", ⟨[("EMPLOYEE0", "x")], []⟩) :=
  have h := argument_count_checked_first sampleEnv ⟨[("EMPLOYEE0", "x")], []⟩
    ["EMPLOYEE0", "EMP1001", "2"]
  ⟨h.1 (by decide), h.2.1 (by decide), h.2.2.1 (by decide), h.2.2.2.1 (by decide),
   h.2.2.2.2.1 (by decide), h.2.2.2.2.2 (by decide)⟩

/-- C16. For each of `createEmployee`, `updateEmployee`, `assignOffice` and
`createOffice`, for every stub and argument list, every key other than `args[0]`
has the same value after the call as before it; indeed the whole world state is
the same after the call, whatever its result. -/
theorem commands_touch_no_other_key (env : Env) (APIstub : Stub) (args : List String)
    (key : String) (_h : args[0]? ≠ some key) :
    (lookup key (createEmployee APIstub args).2.state = lookup key APIstub.state ∧
      (createEmployee APIstub args).2.state = APIstub.state) ∧
    (lookup key (updateEmployee env APIstub args).2.state = lookup key APIstub.state ∧
      (updateEmployee env APIstub args).2.state = APIstub.state) ∧
    (lookup key (assignOffice env APIstub args).2.state = lookup key APIstub.state ∧
      (assignOffice env APIstub args).2.state = APIstub.state) ∧
    (lookup key (createOffice APIstub args).2.state = lookup key APIstub.state ∧
      (createOffice APIstub args).2.state = APIstub.state) := by
  rw [createEmployee_eq, updateEmployee_eq, assignOffice_eq, createOffice_eq]
  refine ⟨?_, ?_, ?_, ?_⟩ <;> split <;> simp [Stub.GetState]

theorem commands_touch_no_other_key_witness :
    ["EMPLOYEE0", "EMPLOYEE1", "Vinit", "Timble", "01/01/2001"][0]? ≠ some "EMPLOYEE1" ∧
    lookup "EMPLOYEE1"
      (updateEmployee sampleEnv ⟨[("EMPLOYEE0", "x"), ("EMPLOYEE1", "y")], []⟩
        ["EMPLOYEE0", "EMPLOYEE1", "Vinit", "Timble", "01/01/2001"]).2.state = some "y" :=
  ⟨by decide,
   (commands_touch_no_other_key sampleEnv ⟨[("EMPLOYEE0", "x"), ("EMPLOYEE1", "y")], []⟩
      ["EMPLOYEE0", "EMPLOYEE1", "Vinit", "Timble", "01/01/2001"] "EMPLOYEE1"
      (by decide)).2.1.1.trans (by decide)⟩

/-- C17. For every stub and argument list, `queryAllEmployees`,
`queryAllOffices`, `queryEmployeeOfficeName` and `queryEmployeesInOffice` leave
the world state exactly as it was, whatever they return, and make no `PutState`
call. -/
theorem queries_are_read_only (env : Env) (APIstub : Stub) (args : List String) :
    neverWrites APIstub (queryAllEmployees APIstub).2 ∧
    neverWrites APIstub (queryAllOffices APIstub).2 ∧
    neverWrites APIstub (queryEmployeeOfficeName env APIstub args).2 ∧
    neverWrites APIstub (queryEmployeesInOffice env APIstub args).2 := by
  rw [queryEmployeeOfficeName_eq, queryEmployeesInOffice_eq]
  refine ⟨?_, ?_, ?_, ?_⟩
  · simp [neverWrites, queryAllEmployees, Stub.GetStateByRange]
  · simp [neverWrites, queryAllOffices, Stub.GetStateByRange]
  · split <;> simp [neverWrites]
  · split <;> simp [neverWrites]

/-- C18. Running `initLedger` on the world state it has produced changes
nothing: for every stub the second run succeeds like the first and leaves the
same world state. The values under the nine seeded keys after `initLedger` are
the same from whatever world state it starts. -/
theorem initLedger_idempotent (APIstub other : Stub) :
    (initLedger (initLedger APIstub).2).2.state = (initLedger APIstub).2.state ∧
    (initLedger (initLedger APIstub).2).1 = (initLedger APIstub).1 ∧
    seedKeys.map (fun key => lookup key (initLedger APIstub).2.state) =
      seedKeys.map (fun key => lookup key (initLedger other).2.state) := by
  refine ⟨?_, rfl, ?_⟩
  · rw [initLedger_state, initLedger_state]
    exact putAll_idempotent _ (seedBindings_keys ▸ seedKeys_nodup) _
  · rw [initLedger_state, initLedger_state, ← seedBindings_keys,
      lookups_putAll _ (seedBindings_keys ▸ seedKeys_nodup),
      lookups_putAll _ (seedBindings_keys ▸ seedKeys_nodup)]

end EmployeeOffice
